import Mathlib

/-!
Shallow embedding of the LinkShrink URL-shortening service.

Sources embedded:
- src/shared/schema.ts        : table shapes (urls, url_clicks, url_analytics)
- src/unnamed/part_000        : DatabaseStorage (getUrl, checkCustomAlias,
                                createUrl, updateUrl, deleteUrl, recordClick,
                                updateUrlAnalytics)
- src/unnamed/part_001        : parseUserAgent, extractDomain
- src/server/routes.ts        : POST /api/urls, PUT /api/urls/:id,
                                GET /:shortCode handlers

Modelling conventions:
- timestamps are Nat (seconds); `date(clicked_at)` is day truncation t / 86400;
- nullable columns are Option; SQL NULL is `none`;
- the database tables are lists of rows; db-generated uuid ids are passed in as
  explicit parameters (their values are opaque and never interpreted);
- the jsonb frequency maps are association lists `List (String × Nat)`;
- the aggregation select of updateUrlAnalytics (part_000:206-244) is embedded
  denotationally: `json_object_agg(coalesce(col, fallback), count(col))` is the
  group-by on the coalesced key with value `count(col)` inside the group, which
  per SQL `count` semantics counts only the rows whose `col` is non-NULL;
  `count(distinct ip)` likewise counts distinct non-NULL values.
-/

namespace LinkShrink

/-- Substring test on char lists: does the second list start with the first? -/
def leadsWith : List Char → List Char → Bool
  | [], _ => true
  | _ :: _, [] => false
  | a :: as, b :: bs => a == b && leadsWith as bs

/-- Does the char list contain `pat` as a contiguous sublist? -/
def hasSub (pat : List Char) : List Char → Bool
  | [] => leadsWith pat []
  | b :: bs => leadsWith pat (b :: bs) || hasSub pat bs

/-- Models JavaScript `s.includes(pat)` for the nonempty literal markers used
in parseUserAgent (src/unnamed/part_001). -/
def strHas (s pat : String) : Bool := hasSub pat.toList s.toList

/-- ASCII lower-casing of one character. -/
def lowerChar (c : Char) : Char :=
  if 65 ≤ c.toNat && c.toNat ≤ 90 then Char.ofNat (c.toNat + 32) else c

/-- Models JavaScript `s.toLowerCase()` for the ASCII range — the only range
the substring markers of parseUserAgent use. -/
def lowerStr (s : String) : String := String.mk (s.data.map lowerChar)

/-- Result of parseUserAgent (src/unnamed/part_001:37-62). -/
structure UAInfo where
  browser : String
  os : String
  device : String
deriving DecidableEq

/-- parseUserAgent (src/unnamed/part_001:37-62): ordered substring matching on
the case-folded user-agent string. -/
def parseUserAgent (userAgent : String) : UAInfo :=
  let ua := lowerStr userAgent
  let browser :=
    if strHas ua "chrome" && !(strHas ua "edg") then "Chrome"
    else if strHas ua "firefox" then "Firefox"
    else if strHas ua "safari" && !(strHas ua "chrome") then "Safari"
    else if strHas ua "edg" then "Edge"
    else if strHas ua "opera" || strHas ua "opr" then "Opera"
    else "Unknown"
  let os :=
    if strHas ua "windows" then "Windows"
    else if strHas ua "mac" then "macOS"
    else if strHas ua "linux" then "Linux"
    else if strHas ua "android" then "Android"
    else if strHas ua "ios" || strHas ua "iphone" || strHas ua "ipad" then "iOS"
    else "Unknown"
  let device :=
    if strHas ua "mobile" || strHas ua "android" || strHas ua "iphone" then "Mobile"
    else if strHas ua "tablet" || strHas ua "ipad" then "Tablet"
    else "Desktop"
  ⟨browser, os, device⟩

/-- Take the leading host characters: stop at "/", ":", "?" or "#". -/
def takeHost : List Char → List Char
  | [] => []
  | c :: cs => if c == '/' || c == ':' || c == '?' || c == '#' then [] else c :: takeHost cs

/-- Split a char list at the first occurrence of `sep`: the part before it and
the part after it (models the first two components of `String.splitOn`). -/
def splitSep (sep : List Char) : List Char → Option (List Char × List Char)
  | [] => none
  | c :: cs =>
      if leadsWith sep (c :: cs) then some ([], (c :: cs).drop sep.length)
      else
        match splitSep sep cs with
        | some (pre, post) => some (c :: pre, post)
        | none => none

/-- extractDomain (src/unnamed/part_001:64-70): `new URL(url).hostname`, with
`"Direct"` when the URL constructor throws. The hostname parse of the JS `URL`
collaborator is modelled for absolute URLs of the form `scheme://host...`:
the text between the first `"://"` and the next delimiter; anything without a
scheme separator (including the empty string) is unparseable and yields
`"Direct"`. (Splitting only at the first separator is equivalent here, since
the hostname scan stops at the ":" of any later separator.) -/
def extractDomain (url : String) : String :=
  match splitSep "://".data url.data with
  | some (scheme, rest) =>
      if scheme.isEmpty || rest.isEmpty then "Direct"
      else
        let host := takeHost rest
        if host.isEmpty then "Direct" else String.mk host
  | none => "Direct"

/-- Row of the `urls` table (src/shared/schema.ts:44-57). -/
structure Url where
  id : String
  originalUrl : String
  shortCode : String
  customAlias : Option String
  title : Option String
  description : Option String
  userId : Option String
  isActive : Bool
  qrCodeUrl : Option String
  createdAt : Nat
  updatedAt : Nat
  expiresAt : Option Nat
deriving DecidableEq

/-- Row of the `url_clicks` table (src/shared/schema.ts:60-72). -/
structure UrlClick where
  id : String
  urlId : String
  ipAddress : Option String
  userAgent : Option String
  referer : Option String
  country : Option String
  city : Option String
  device : Option String
  browser : Option String
  os : Option String
  clickedAt : Nat
deriving DecidableEq

/-- Row of the `url_analytics` table (src/shared/schema.ts:75-87). -/
structure UrlAnalytics where
  id : String
  urlId : String
  totalClicks : Nat
  uniqueClicks : Nat
  clicksByCountry : List (String × Nat)
  clicksByDevice : List (String × Nat)
  clicksByBrowser : List (String × Nat)
  clicksByReferer : List (String × Nat)
  dailyClicks : List (Nat × Nat)
  lastClickAt : Option Nat
  updatedAt : Nat
deriving DecidableEq

/-- The persistent store: the three tables the core operates on. -/
structure Storage where
  urls : List Url
  urlClicks : List UrlClick
  urlAnalytics : List UrlAnalytics
deriving DecidableEq

def emptyStorage : Storage := ⟨[], [], []⟩

/-- `date(clicked_at)`: truncation of a second-resolution timestamp to its day. -/
def clickDate (t : Nat) : Nat := t / 86400

/-- The rows of `url_clicks` for one link:
`where(eq(urlClicks.urlId, urlId))` (src/unnamed/part_000:243). -/
def clicksFor (s : Storage) (urlId : String) : List UrlClick :=
  s.urlClicks.filter (fun c => c.urlId == urlId)

/-- One dimensional frequency map of the aggregation select
(src/unnamed/part_000:210-233): `json_object_agg(coalesce(col, fallback),
count(col))` — keys are the distinct coalesced field values, each key's value
is `count(col)` inside its group, which counts only non-NULL fields. -/
def groupCount (field : UrlClick → Option String) (fallback : String)
    (clicks : List UrlClick) : List (String × Nat) :=
  ((clicks.map (fun c => (field c).getD fallback)).dedup).map
    (fun k => (k, (clicks.filter
      (fun c => ((field c).getD fallback == k) && (field c).isSome)).length))

/-- The daily series (src/unnamed/part_000:234-239):
`json_object_agg(date(clicked_at), count(*))` grouped by click date. -/
def dailyCount (clicks : List UrlClick) : List (Nat × Nat) :=
  ((clicks.map (fun c => clickDate c.clickedAt)).dedup).map
    (fun d => (d, (clicks.filter (fun c => clickDate c.clickedAt == d)).length))

/-- `max(clicked_at)` (src/unnamed/part_000:240): NULL on no rows. -/
def lastClickOf : List UrlClick → Option Nat
  | [] => none
  | c :: cs => some ((cs.map (·.clickedAt)).foldl max c.clickedAt)

/-- The row shape produced by the aggregation select of updateUrlAnalytics
(src/unnamed/part_000:206-244). -/
structure ClicksData where
  totalClicks : Nat
  uniqueClicks : Nat
  countries : List (String × Nat)
  devices : List (String × Nat)
  browsers : List (String × Nat)
  referers : List (String × Nat)
  dailyClicks : List (Nat × Nat)
  lastClick : Option Nat
deriving DecidableEq

/-- The aggregation select (src/unnamed/part_000:206-244) evaluated on the
click rows of one link. `count(*)` counts all rows; `count(distinct ip)`
counts distinct non-NULL ip values. -/
def clicksDataFor (clicks : List UrlClick) : ClicksData where
  totalClicks := clicks.length
  uniqueClicks := ((clicks.filterMap (·.ipAddress)).dedup).length
  countries := groupCount (·.country) "Unknown" clicks
  devices := groupCount (·.device) "Unknown" clicks
  browsers := groupCount (·.browser) "Unknown" clicks
  referers := groupCount (·.referer) "Direct" clicks
  dailyClicks := dailyCount clicks
  lastClick := lastClickOf clicks

/-- Overwrite of all derived fields of an existing snapshot row: the
`onConflictDoUpdate` set-clause of updateUrlAnalytics
(src/unnamed/part_000:261-274), which also bumps `updatedAt`. -/
def applyData (a : UrlAnalytics) (d : ClicksData) (now : Nat) : UrlAnalytics :=
  { a with
    totalClicks := d.totalClicks
    uniqueClicks := d.uniqueClicks
    clicksByCountry := d.countries
    clicksByDevice := d.devices
    clicksByBrowser := d.browsers
    clicksByReferer := d.referers
    dailyClicks := d.dailyClicks
    lastClickAt := d.lastClick
    updatedAt := now }

/-- A freshly inserted snapshot row: the values-clause of the upsert
(src/unnamed/part_000:249-260); `updatedAt` takes its column default `now()`
and `id` its generated uuid, modelled by the opaque string `urlId`. -/
def newAnalytics (urlId : String) (d : ClicksData) (now : Nat) : UrlAnalytics :=
  { id := urlId
    urlId := urlId
    totalClicks := d.totalClicks
    uniqueClicks := d.uniqueClicks
    clicksByCountry := d.countries
    clicksByDevice := d.devices
    clicksByBrowser := d.browsers
    clicksByReferer := d.referers
    dailyClicks := d.dailyClicks
    lastClickAt := d.lastClick
    updatedAt := now }

/-- updateUrlAnalytics (src/unnamed/part_000:204-276): run the aggregation
select over the link's click rows; when it returns a row (iff at least one
click exists — the select groups by url_id), upsert the snapshot row keyed by
url_id; otherwise do nothing. -/
def updateUrlAnalytics (s : Storage) (urlId : String) (now : Nat) : Storage :=
  if (clicksFor s urlId).isEmpty then s
  else if s.urlAnalytics.any (fun a => a.urlId == urlId) then
    { s with urlAnalytics := s.urlAnalytics.map (fun a => if a.urlId == urlId then applyData a (clicksDataFor (clicksFor s urlId)) now else a) }
  else
    { s with urlAnalytics := s.urlAnalytics ++ [newAnalytics urlId (clicksDataFor (clicksFor s urlId)) now] }

/-- recordClick (src/unnamed/part_000:199-202): append the click row, then
recompute the link's analytics. -/
def recordClick (s : Storage) (click : UrlClick) (now : Nat) : Storage :=
  updateUrlAnalytics { s with urlClicks := s.urlClicks ++ [click] } click.urlId now

/-- getUrl (src/unnamed/part_000:100-108): first row of
`select ... where short_code = code and is_active = true`. -/
def getUrl (s : Storage) (shortCode : String) : Option Url :=
  (s.urls.filter (fun u => u.shortCode == shortCode && u.isActive)).head?

/-- checkCustomAlias (src/unnamed/part_000:184-196): does an *active* row with
this short code exist? (The source calls the argument `alias`, a keyword here.) -/
def checkCustomAlias (s : Storage) (aliasStr : String) : Bool :=
  s.urls.any (fun u => u.shortCode == aliasStr && u.isActive)

/-- deleteUrl (src/unnamed/part_000:180-182): soft delete, `is_active := false`. -/
def deleteUrl (s : Storage) (id : String) : Storage :=
  { s with urls := s.urls.map (fun u => if u.id == id then { u with isActive := false } else u) }

inductive StorageErr
  | uniqueViolation
deriving DecidableEq

/-- The caller-supplied insert payload of createUrl: the zod-validated body of
POST /api/urls (insertUrlSchema, src/shared/schema.ts:124-131), minus the
short code which the route chooses. -/
structure InsertUrl where
  originalUrl : String
  customAlias : Option String := none
  title : Option String := none
  description : Option String := none
  userId : Option String := none
  isActive : Option Bool := none
  expiresAt : Option Nat := none
deriving DecidableEq

/-- The url row createUrl inserts (src/unnamed/part_000:150-156): the insert
payload plus the chosen short code; `is_active`, `created_at` and
`updated_at` fall back to their column defaults. -/
def newUrlRow (insert : InsertUrl) (shortCode : String) (qrCodeUrl : Option String)
    (newId : String) (now : Nat) : Url :=
  { id := newId
    originalUrl := insert.originalUrl
    shortCode := shortCode
    customAlias := insert.customAlias
    title := insert.title
    description := insert.description
    userId := insert.userId
    isActive := insert.isActive.getD true
    qrCodeUrl := qrCodeUrl
    createdAt := now
    updatedAt := now
    expiresAt := insert.expiresAt }

/-- The analytics row createUrl inserts (src/unnamed/part_000:158-163):
totalClicks 0, uniqueClicks 0, jsonb columns at their `{}` defaults. -/
def emptySnapRow (newId : String) (now : Nat) : UrlAnalytics :=
  { id := newId
    urlId := newId
    totalClicks := 0
    uniqueClicks := 0
    clicksByCountry := []
    clicksByDevice := []
    clicksByBrowser := []
    clicksByReferer := []
    dailyClicks := []
    lastClickAt := none
    updatedAt := now }

/-- createUrl (src/unnamed/part_000:147-166): insert the url row — the global
unique constraint on `short_code` (schema.ts:47) rejects a duplicate code,
active or not — then insert the empty analytics row. -/
def createUrl (s : Storage) (insert : InsertUrl) (shortCode : String)
    (qrCodeUrl : Option String) (newId : String) (now : Nat) :
    Except StorageErr (Storage × Url) :=
  if s.urls.any (fun u => u.shortCode == shortCode) then .error .uniqueViolation
  else
    .ok ({ s with
           urls := s.urls ++ [newUrlRow insert shortCode qrCodeUrl newId now]
           urlAnalytics := s.urlAnalytics ++ [emptySnapRow newId now] },
         newUrlRow insert shortCode qrCodeUrl newId now)

/-- The (untyped) body of PUT /api/urls/:id: `const updates = req.body`
(src/server/routes.ts:262), passed straight to updateUrl as a partial row.
A field that is `none` is absent from the request body. -/
structure UpdateBody where
  originalUrl : Option String := none
  shortCode : Option String := none
  customAlias : Option String := none
  title : Option String := none
  description : Option String := none
  isActive : Option Bool := none
  expiresAt : Option (Option Nat) := none
deriving DecidableEq

/-- The drizzle `update(urls).set({ ...updates, updatedAt: new Date() })` of
updateUrl (src/unnamed/part_000:168-178): present fields overwrite, absent
fields keep the stored value, `updatedAt` is always bumped. -/
def applyUpdates (u : Url) (b : UpdateBody) (now : Nat) : Url :=
  { u with
    originalUrl := b.originalUrl.getD u.originalUrl
    shortCode := b.shortCode.getD u.shortCode
    customAlias := b.customAlias.or u.customAlias
    title := b.title.or u.title
    description := b.description.or u.description
    isActive := b.isActive.getD u.isActive
    expiresAt := b.expiresAt.getD u.expiresAt
    updatedAt := now }

/-- updateUrl (src/unnamed/part_000:168-178): update the row matched by id and
return it. The global unique constraint on `short_code` (schema.ts:47) rejects
an update that would duplicate another row's code. No matching row updates
nothing and returns `none` (the source's `returning()` is then empty). -/
def updateUrl (s : Storage) (id : String) (b : UpdateBody) (now : Nat) :
    Except StorageErr (Storage × Option Url) :=
  match s.urls.find? (fun u => u.id == id) with
  | none => .ok (s, none)
  | some u =>
      let u2 := applyUpdates u b now
      if s.urls.any (fun v => (v.id != id) && (v.shortCode == u2.shortCode)) then
        .error .uniqueViolation
      else
        let rows := s.urls.map (fun v => if v.id == id then u2 else v)
        .ok ({ s with urls := rows }, some u2)

/-- Response of POST /api/urls (src/server/routes.ts:108-150): `created` is the
200 JSON payload's row, `aliasTaken` the 400 "Custom alias is already taken",
`failed` the catch-all 500 "Failed to create short URL". -/
inductive CreateResponse
  | created (url : Url)
  | aliasTaken
  | failed
deriving DecidableEq

/-- POST /api/urls handler (src/server/routes.ts:108-150), after zod
validation. `genCode` is the single `nanoid(8)` draw of line 120 — the route
computes `validatedData.customAlias || nanoid(8)` once and never retries.
`newId` is the uuid the insert generates; `qr` the generated QR data URL.
A thrown storage error (e.g. the unique constraint on short_code) reaches the
catch-block and answers 500 with no row created. -/
def createUrlHandler (s : Storage) (body : InsertUrl) (user : Option String)
    (genCode : String) (qr : Option String) (newId : String) (now : Nat) :
    CreateResponse × Storage :=
  match body.customAlias with
  | some aliasStr =>
      if checkCustomAlias s aliasStr then (.aliasTaken, s)
      else
        match createUrl s { body with userId := user } aliasStr qr newId now with
        | .ok (s2, url) => (.created url, s2)
        | .error _ => (.failed, s)
  | none =>
      match createUrl s { body with userId := user } genCode qr newId now with
      | .ok (s2, url) => (.created url, s2)
      | .error _ => (.failed, s)

/-- Response of PUT /api/urls/:id (src/server/routes.ts:255-282). -/
inductive UpdateResponse
  | updated (url : Url)
  | notFound
  | aliasTaken
  | failed
deriving DecidableEq

/-- PUT /api/urls/:id handler (src/server/routes.ts:255-282): look the row up
by id, 404 unless it exists and belongs to the authenticated user; when the
body carries a (truthy, i.e. nonempty) customAlias different from the stored
one, pre-check availability and *copy the alias into `updates.shortCode`*
(line 270); then apply updateUrl. A storage error answers 500. -/
def putUrlHandler (s : Storage) (userId : String) (id : String) (b : UpdateBody)
    (now : Nat) : UpdateResponse × Storage :=
  match s.urls.find? (fun u => u.id == id) with
  | none => (.notFound, s)
  | some url =>
      if url.userId == some userId then
        let proceed := fun (b2 : UpdateBody) =>
          match updateUrl s id b2 now with
          | .ok (s2, some u2) => (UpdateResponse.updated u2, s2)
          | .ok (_, none) => (UpdateResponse.failed, s)
          | .error _ => (UpdateResponse.failed, s)
        match b.customAlias with
        | some aliasStr =>
            if aliasStr != "" && !(url.customAlias == some aliasStr) then
              if checkCustomAlias s aliasStr then (.aliasTaken, s)
              else proceed { b with shortCode := some aliasStr }
            else proceed b
        | none => proceed b
      else (.notFound, s)

/-- The request facts the redirect route reads (src/server/routes.ts:311-317):
`req.headers['user-agent']`, `req.headers.referer`, `req.ip`. -/
structure RedirectRequest where
  userAgent : Option String := none
  referer : Option String := none
  ip : Option String := none
deriving DecidableEq

/-- Response of GET /:shortCode (src/server/routes.ts:301-335): the 301
redirect, the 404 "URL not found", or the catch-block 500 "Server error". -/
inductive RedirectResponse
  | redirect301 (location : String)
  | notFound
  | serverError
deriving DecidableEq

/-- JavaScript `x || null` on a string-or-undefined: the empty string is falsy. -/
def orNullStr : Option String → Option String
  | some s => if s == "" then none else some s
  | none => none

/-- The click row built by the redirect route (src/server/routes.ts:310-328).
The stored referer is `req.headers.referer || null` — the raw header value —
while line 313's `extractDomain(req.headers.referer || '')` result is bound to
an unused local and never stored. Country is the hardcoded placeholder "US";
the row id is db-generated (opaque, modelled as ""); clickedAt takes the
column default `now()`. -/
def mkClick (urlId : String) (req : RedirectRequest) (now : Nat) : UrlClick :=
  let userAgent := req.userAgent.getD ""
  let ua := parseUserAgent userAgent
  { id := ""
    urlId := urlId
    ipAddress := some (req.ip.getD "")
    userAgent := some userAgent
    referer := orNullStr req.referer
    country := some "US"
    city := none
    device := some ua.device
    browser := some ua.browser
    os := some ua.os
    clickedAt := now }

/-- Outcome of the awaited `storage.recordClick(...)` promise: on failure the
exception propagates, leaving behind whatever state the partial run committed. -/
inductive RecordOutcome
  | ok (s : Storage)
  | failed (s : Storage)
deriving DecidableEq

/-- recordClick (src/unnamed/part_000:199-202) with fault injection: the click
insert may fail (nothing committed), or the subsequent updateUrlAnalytics call
may fail (the click row is already committed — the two statements share no
transaction). -/
def recordClickRun (s : Storage) (click : UrlClick) (insertFails aggFails : Bool)
    (now : Nat) : RecordOutcome :=
  if insertFails then .failed s
  else
    let s1 := { s with urlClicks := s.urlClicks ++ [click] }
    if aggFails then .failed s1
    else .ok (updateUrlAnalytics s1 click.urlId now)

/-- GET /:shortCode handler (src/server/routes.ts:301-335): look the code up
(active rows only); 404 when absent. Otherwise build the click row and *await*
`storage.recordClick` — only after it resolves is the 301 issued; if it
rejects, the catch-block answers 500 and no redirect is sent. -/
def redirectHandler (s : Storage) (shortCode : String) (req : RedirectRequest)
    (insertFails aggFails : Bool) (now : Nat) : RedirectResponse × Storage :=
  match getUrl s shortCode with
  | none => (.notFound, s)
  | some url =>
      match recordClickRun s (mkClick url.id req now) insertFails aggFails now with
      | .failed s2 => (.serverError, s2)
      | .ok s2 => (.redirect301 url.originalUrl, s2)

/-- The snapshot row of one link: `select().from(urlAnalytics).where(eq(urlId))`
(src/unnamed/part_000:278-284). -/
def findSnapshot (s : Storage) (urlId : String) : Option UrlAnalytics :=
  s.urlAnalytics.find? (fun a => a.urlId == urlId)

/-- The url row of one id (getUrlById's base row, src/unnamed/part_000:110-126). -/
def findUrlById (s : Storage) (id : String) : Option Url :=
  s.urls.find? (fun u => u.id == id)

/-- Sum of the values of a jsonb frequency map. -/
def sumVals (m : List (String × Nat)) : Nat := (m.map (·.2)).sum

/-- How many clicks have the given classification field set (non-NULL). -/
def countSome (field : UrlClick → Option String) (clicks : List UrlClick) : Nat :=
  (clicks.filter (fun c => (field c).isSome)).length

/-- Rewrite every link's expiry field (used to state that resolution never
reads `expires_at`). -/
def setExpiries (f : Url → Option Nat) (s : Storage) : Storage :=
  { s with urls := s.urls.map (fun u => { u with expiresAt := f u }) }

/-- Forget the `updatedAt` bookkeeping field of a snapshot row. -/
def eraseUpdatedAt (a : UrlAnalytics) : UrlAnalytics := { a with updatedAt := 0 }

/-! ### General counting lemmas -/

theorem sum_map_add {α : Type} (l : List α) (f g : α → Nat) :
    (l.map (fun x => f x + g x)).sum = (l.map f).sum + (l.map g).sum := by
  induction l with
  | nil => simp
  | cons x xs ih => simp [ih]; omega

theorem sum_indicator_of_not_mem {β : Type} [BEq β] [LawfulBEq β] (b : β) (ks : List β)
    (h : b ∉ ks) : (ks.map (fun k => if b == k then 1 else 0)).sum = 0 := by
  induction ks with
  | nil => rfl
  | cons k ks ih =>
      rw [List.mem_cons, not_or] at h
      simp [beq_iff_eq, h.1, ih h.2]

theorem sum_indicator_of_nodup {β : Type} [BEq β] [LawfulBEq β] (b : β) (ks : List β)
    (hnd : ks.Nodup) (hb : b ∈ ks) :
    (ks.map (fun k => if b == k then 1 else 0)).sum = 1 := by
  induction ks with
  | nil => cases hb
  | cons k ks ih =>
      rcases List.mem_cons.mp hb with rfl | hb2
      · have hnotin : b ∉ ks := (List.nodup_cons.mp hnd).1
        simp [sum_indicator_of_not_mem b ks hnotin]
      · have hne : b ≠ k := fun he => (List.nodup_cons.mp hnd).1 (he ▸ hb2)
        simp [beq_iff_eq, hne, ih (List.nodup_cons.mp hnd).2 hb2]

/-- Group-by counting: summing, over a duplicate-free list of keys covering
every selected element's key, the number of selected elements in each key's
group, counts every selected element exactly once. -/
theorem length_filter_partition {α β : Type} [BEq β] [LawfulBEq β]
    (kf : α → β) (p : α → Bool) (ks : List β) (hnd : ks.Nodup) (xs : List α)
    (hcov : ∀ x ∈ xs, kf x ∈ ks) :
    (ks.map (fun k => (xs.filter (fun x => (kf x == k) && p x)).length)).sum
      = (xs.filter p).length := by
  induction xs with
  | nil => simp
  | cons x xs ih =>
      have hx : kf x ∈ ks := hcov x (List.mem_cons_self x xs)
      have hxs : ∀ y ∈ xs, kf y ∈ ks := fun y hy => hcov y (List.mem_cons_of_mem x hy)
      have hstep : ∀ q : α → Bool, ((x :: xs).filter q).length
          = (if q x then 1 else 0) + (xs.filter q).length := by
        intro q
        by_cases hq : q x
        · simp [List.filter_cons, hq]
          omega
        · simp [List.filter_cons, hq]
      have h1 : (ks.map (fun k => ((x :: xs).filter (fun y => (kf y == k) && p y)).length)).sum
          = (ks.map (fun k => (if (kf x == k) && p x then 1 else 0)
              + (xs.filter (fun y => (kf y == k) && p y)).length)).sum := by
        congr 1
        exact List.map_congr_left (fun k _ => hstep _)
      rw [h1, sum_map_add, ih hxs, hstep p]
      congr 1
      by_cases hp : p x
      · have he : (fun k => if (kf x == k) && p x then (1 : Nat) else 0)
            = (fun k => if (kf x == k : Bool) then (1 : Nat) else 0) := by
          funext k
          rw [hp, Bool.and_true]
        rw [he, hp, if_pos rfl]
        exact sum_indicator_of_nodup (kf x) ks hnd hx
      · have hpf : p x = false := by
          rwa [Bool.not_eq_true] at hp
        have he : (fun k => if (kf x == k) && p x then (1 : Nat) else 0)
            = (fun _ => (0 : Nat)) := by
          funext k
          rw [hpf, Bool.and_false]
          simp
        rw [he, hpf]
        simp

/-- The sum of the values of one dimensional frequency map counts exactly the
clicks whose classification field is non-NULL (`count(col)` skips NULLs). -/
theorem sumVals_groupCount (field : UrlClick → Option String) (fb : String)
    (clicks : List UrlClick) :
    sumVals (groupCount field fb clicks) = countSome field clicks := by
  unfold sumVals groupCount countSome
  rw [List.map_map]
  exact length_filter_partition (fun c => (field c).getD fb) (fun c => (field c).isSome)
    _ (List.nodup_dedup _) clicks
    (fun c hc => List.mem_dedup.mpr (List.mem_map_of_mem _ hc))

/-! ### Frame and characterization lemmas for updateUrlAnalytics -/

theorem updateUrlAnalytics_urls (s : Storage) (urlId : String) (now : Nat) :
    (updateUrlAnalytics s urlId now).urls = s.urls := by
  unfold updateUrlAnalytics
  split
  · rfl
  · split <;> rfl

theorem updateUrlAnalytics_urlClicks (s : Storage) (urlId : String) (now : Nat) :
    (updateUrlAnalytics s urlId now).urlClicks = s.urlClicks := by
  unfold updateUrlAnalytics
  split
  · rfl
  · split <;> rfl

theorem clicksFor_updateUrlAnalytics (s : Storage) (uid uid2 : String) (now : Nat) :
    clicksFor (updateUrlAnalytics s uid now) uid2 = clicksFor s uid2 := by
  unfold clicksFor
  rw [updateUrlAnalytics_urlClicks]

/-- With no click rows the aggregation select returns no row and
updateUrlAnalytics writes nothing at all. -/
theorem update_noop_of_no_clicks (s : Storage) (urlId : String) (now : Nat)
    (h : clicksFor s urlId = []) : updateUrlAnalytics s urlId now = s := by
  unfold updateUrlAnalytics
  rw [h]
  rfl

/-- After a recomputation over at least one click, a snapshot row exists for
the link. -/
theorem update_has_row (s : Storage) (urlId : String) (now : Nat)
    (hne : clicksFor s urlId ≠ []) :
    (updateUrlAnalytics s urlId now).urlAnalytics.any (fun a => a.urlId == urlId) = true := by
  unfold updateUrlAnalytics
  rw [if_neg (by simpa [List.isEmpty_iff] using hne)]
  split
  · next hany =>
      rw [List.any_eq_true] at hany ⊢
      obtain ⟨b, hb, hpb⟩ := hany
      refine ⟨_, List.mem_map_of_mem _ hb, ?_⟩
      simp only [hpb, if_true]
      simpa using hpb
  · simp
    exact Or.inr rfl

/-- Every snapshot row for the link after a recomputation over at least one
click is a fixpoint of the upsert's overwrite at the same data and time. -/
theorem snapshot_fixpoint {s : Storage} {urlId : String} {now : Nat} {a : UrlAnalytics}
    (hne : clicksFor s urlId ≠ [])
    (ha : a ∈ (updateUrlAnalytics s urlId now).urlAnalytics) (haid : a.urlId = urlId) :
    a = applyData a (clicksDataFor (clicksFor s urlId)) now := by
  unfold updateUrlAnalytics at ha
  rw [if_neg (by simpa [List.isEmpty_iff] using hne)] at ha
  split at ha
  · next hany =>
      simp only [List.mem_map] at ha
      obtain ⟨b, hb, rfl⟩ := ha
      by_cases hbid : b.urlId = urlId
      · rw [if_pos (by simpa using hbid)]
        rfl
      · rw [if_neg (by simpa using hbid)] at haid ⊢
        exact absurd haid hbid
  · next hany =>
      rcases List.mem_append.mp ha with hmem | hnew
      · rw [Bool.not_eq_true, List.any_eq_false] at hany
        exact absurd (show (a.urlId == urlId) = true by simpa using haid)
          (by simpa using hany a hmem)
      · rw [List.mem_singleton] at hnew
        subst hnew
        rfl

/-- Characterization of the snapshot row of a link after recomputation over a
nonempty click log: every derived field is the full re-derivation from the
click rows and `updatedAt` is the recomputation time. -/
theorem snapshot_after_update {s : Storage} {urlId : String} {now : Nat} {a : UrlAnalytics}
    (hne : clicksFor s urlId ≠ [])
    (ha : a ∈ (updateUrlAnalytics s urlId now).urlAnalytics) (haid : a.urlId = urlId) :
    a.totalClicks = (clicksFor s urlId).length ∧
    a.uniqueClicks = (((clicksFor s urlId).filterMap (·.ipAddress)).dedup).length ∧
    a.clicksByCountry = groupCount (·.country) "Unknown" (clicksFor s urlId) ∧
    a.clicksByDevice = groupCount (·.device) "Unknown" (clicksFor s urlId) ∧
    a.clicksByBrowser = groupCount (·.browser) "Unknown" (clicksFor s urlId) ∧
    a.clicksByReferer = groupCount (·.referer) "Direct" (clicksFor s urlId) ∧
    a.dailyClicks = dailyCount (clicksFor s urlId) ∧
    a.lastClickAt = lastClickOf (clicksFor s urlId) ∧
    a.updatedAt = now := by
  have hfix := snapshot_fixpoint hne ha haid
  rw [hfix]
  exact ⟨rfl, rfl, rfl, rfl, rfl, rfl, rfl, rfl, rfl⟩

/-- When a snapshot row for the link already exists, the upsert takes its
conflict-update path: a pure overwrite of the existing row. -/
theorem update_eq_map_of_has_row (s : Storage) (urlId : String) (now : Nat)
    (hne : clicksFor s urlId ≠ [])
    (hrow : s.urlAnalytics.any (fun a => a.urlId == urlId) = true) :
    updateUrlAnalytics s urlId now
      = { s with urlAnalytics := s.urlAnalytics.map (fun a => if a.urlId == urlId then applyData a (clicksDataFor (clicksFor s urlId)) now else a) } := by
  unfold updateUrlAnalytics
  rw [if_neg (by simpa [List.isEmpty_iff] using hne), if_pos hrow]

/-- Recomputing a second time over an unchanged click log reproduces every
snapshot row except for the `updatedAt` bump. -/
theorem update_update_erase (s : Storage) (urlId : String) (t1 t2 : Nat) :
    ((updateUrlAnalytics (updateUrlAnalytics s urlId t1) urlId t2).urlAnalytics).map eraseUpdatedAt
      = ((updateUrlAnalytics s urlId t1).urlAnalytics).map eraseUpdatedAt := by
  by_cases h : clicksFor s urlId = []
  · rw [update_noop_of_no_clicks s urlId t1 h, update_noop_of_no_clicks s urlId t2 h]
  · have h1 : clicksFor (updateUrlAnalytics s urlId t1) urlId = clicksFor s urlId :=
      clicksFor_updateUrlAnalytics s urlId urlId t1
    have hne1 : clicksFor (updateUrlAnalytics s urlId t1) urlId ≠ [] := by
      rw [h1]; exact h
    rw [update_eq_map_of_has_row _ urlId t2 hne1 (update_has_row s urlId t1 h), h1]
    rw [List.map_map]
    apply List.map_congr_left
    intro a hamem
    by_cases hm : a.urlId = urlId
    · have hfix : a = applyData a (clicksDataFor (clicksFor s urlId)) t1 :=
        snapshot_fixpoint h hamem hm
      show eraseUpdatedAt (if a.urlId == urlId then applyData a (clicksDataFor (clicksFor s urlId)) t2 else a) = eraseUpdatedAt a
      rw [if_pos (by simpa using hm)]
      conv_rhs => rw [hfix]
      rfl
    · show eraseUpdatedAt (if a.urlId == urlId then applyData a (clicksDataFor (clicksFor s urlId)) t2 else a) = eraseUpdatedAt a
      rw [if_neg (by simpa using hm)]

/-! ### Concrete example states (used by witnesses and counterexamples) -/

/-- An active link, owned by user "usr", with code "abc". -/
def exUrl : Url :=
  { id := "u1", originalUrl := "https://t.example/a", shortCode := "abc",
    customAlias := none, title := none, description := none, userId := some "usr",
    isActive := true, qrCodeUrl := none, createdAt := 0, updatedAt := 0, expiresAt := none }

/-- The empty creation-time snapshot of that link. -/
def exSnap0 : UrlAnalytics :=
  { id := "u1", urlId := "u1", totalClicks := 0, uniqueClicks := 0,
    clicksByCountry := [], clicksByDevice := [], clicksByBrowser := [],
    clicksByReferer := [], dailyClicks := [], lastClickAt := none, updatedAt := 0 }

/-- One recorded click with a NULL country and a NULL referer. -/
def exClick : UrlClick :=
  { id := "c1", urlId := "u1", ipAddress := some "203.0.113.7", userAgent := some "",
    referer := none, country := none, city := none, device := some "Desktop",
    browser := some "Unknown", os := some "Unknown", clickedAt := 3 }

/-- Store holding the link, its one click and its creation-time snapshot. -/
def exS : Storage := { urls := [exUrl], urlClicks := [exClick], urlAnalytics := [exSnap0] }

/-- The snapshot row exS's recomputation at time 7 produces. -/
def exSnap1 : UrlAnalytics := applyData exSnap0 (clicksDataFor (clicksFor exS "u1")) 7

/-- A redirect request with no referrer header. -/
def exReq : RedirectRequest :=
  { userAgent := some "curl/8", referer := none, ip := some "203.0.113.7" }

/-! ### C1 -/

/-- C1: for every link, after updateUrlAnalytics has run with no click events
in flight, the snapshot's totalClicks equals the number of ClickEvent rows
recorded for that link. The hypothesis is the link-creation invariant the
claim presupposes: a link whose click log is empty carries its creation-time
snapshot with totalClicks = 0 (createUrl, src/unnamed/part_000:158-163). -/
theorem totalClicks_eq_clickCount (s : Storage) (urlId : String) (now : Nat) (a : UrlAnalytics)
    (hinit : clicksFor s urlId = [] → ∀ b ∈ s.urlAnalytics, b.urlId = urlId → b.totalClicks = 0)
    (ha : a ∈ (updateUrlAnalytics s urlId now).urlAnalytics) (haid : a.urlId = urlId) :
    a.totalClicks = (clicksFor s urlId).length := by
  by_cases h : clicksFor s urlId = []
  · rw [update_noop_of_no_clicks s urlId now h] at ha
    rw [h]
    exact hinit h a ha haid
  · exact (snapshot_after_update h ha haid).1

/-- C1 witness: the store with one recorded click, recomputed at time 7. -/
theorem totalClicks_eq_clickCount_witness :
    exSnap1.totalClicks = (clicksFor exS "u1").length :=
  totalClicks_eq_clickCount exS "u1" 7 exSnap1
    (fun h => absurd h (by decide)) (by decide) (by decide)

/-! ### C2 -/

/-- C2 counterexample: a single click whose country is NULL. The aggregation's
`json_object_agg(coalesce(country, 'Unknown'), count(country))` produces the
fallback key "Unknown" with value `count(country)` = 0 — SQL `count(col)`
skips NULLs — so the clicksByCountry map sums to 0 while totalClicks = 1. -/
theorem clicksByCountry_sum_ne_totalClicks :
    (findSnapshot (updateUrlAnalytics exS "u1" 7) "u1").map
        (fun a => (a.clicksByCountry, sumVals a.clicksByCountry, a.totalClicks))
      = some ([("Unknown", 0)], 0, 1) := by decide

/-- C2 amended: after recomputation the sum of the values of each dimensional
frequency map equals the number of click events whose corresponding
classification field is non-NULL (a NULL field yields the reserved
"Unknown"/"Direct" key but is not counted by `count(col)`); the sum equals
totalClicks exactly when every event has the field set. -/
theorem dimension_sums_count_nonnull (s : Storage) (urlId : String) (now : Nat)
    (a : UrlAnalytics) (hne : clicksFor s urlId ≠ [])
    (ha : a ∈ (updateUrlAnalytics s urlId now).urlAnalytics) (haid : a.urlId = urlId) :
    sumVals a.clicksByCountry = countSome (·.country) (clicksFor s urlId) ∧
    sumVals a.clicksByDevice = countSome (·.device) (clicksFor s urlId) ∧
    sumVals a.clicksByBrowser = countSome (·.browser) (clicksFor s urlId) ∧
    sumVals a.clicksByReferer = countSome (·.referer) (clicksFor s urlId) := by
  obtain ⟨-, -, hc, hd, hb, hr, -, -, -⟩ := snapshot_after_update hne ha haid
  rw [hc, hd, hb, hr]
  exact ⟨sumVals_groupCount _ _ _, sumVals_groupCount _ _ _,
    sumVals_groupCount _ _ _, sumVals_groupCount _ _ _⟩

/-- C2 amended witness: on the one-click store the country and referer maps
sum to 0 (both fields NULL) and the device and browser maps sum to 1. -/
theorem dimension_sums_count_nonnull_witness :
    sumVals exSnap1.clicksByCountry = countSome (·.country) (clicksFor exS "u1") ∧
    sumVals exSnap1.clicksByDevice = countSome (·.device) (clicksFor exS "u1") ∧
    sumVals exSnap1.clicksByBrowser = countSome (·.browser) (clicksFor exS "u1") ∧
    sumVals exSnap1.clicksByReferer = countSome (·.referer) (clicksFor exS "u1") :=
  dimension_sums_count_nonnull exS "u1" 7 exSnap1 (by decide) (by decide) (by decide)

/-! ### C3 -/

/-- C3 counterexample: recomputing at time 10 and again at time 20 with the
same single click yields snapshot rows that are not identical — the second
run bumps `updatedAt` (src/unnamed/part_000:272). -/
theorem recompute_twice_not_identical :
    findSnapshot (updateUrlAnalytics (updateUrlAnalytics exS "u1" 10) "u1" 20) "u1"
      ≠ findSnapshot (updateUrlAnalytics exS "u1" 10) "u1" := by decide

/-- C3 amended: recomputation is idempotent up to the `updatedAt` bump: a
second run with no new click events leaves every url row, every click row and
every snapshot field except `updatedAt` (which each run sets to its own time)
exactly as the first run left them. -/
theorem recompute_idempotent_mod_updatedAt (s : Storage) (urlId : String) (t1 t2 : Nat) :
    (updateUrlAnalytics (updateUrlAnalytics s urlId t1) urlId t2).urls
        = (updateUrlAnalytics s urlId t1).urls ∧
    (updateUrlAnalytics (updateUrlAnalytics s urlId t1) urlId t2).urlClicks
        = (updateUrlAnalytics s urlId t1).urlClicks ∧
    ((updateUrlAnalytics (updateUrlAnalytics s urlId t1) urlId t2).urlAnalytics).map eraseUpdatedAt
        = ((updateUrlAnalytics s urlId t1).urlAnalytics).map eraseUpdatedAt :=
  ⟨updateUrlAnalytics_urls _ urlId t2, updateUrlAnalytics_urlClicks _ urlId t2,
    update_update_erase s urlId t1 t2⟩

/-! ### C10 -/

/-- C10: for a link with zero recorded ClickEvents, updateUrlAnalytics
performs no write at all — the aggregation select returns no row, the guard
`clicksData.length > 0` (src/unnamed/part_000:246) fails, and the whole store
(the creation-time snapshot and its updatedAt included) is left unchanged. -/
theorem update_no_clicks_writes_nothing (s : Storage) (urlId : String) (now : Nat)
    (h : clicksFor s urlId = []) : updateUrlAnalytics s urlId now = s :=
  update_noop_of_no_clicks s urlId now h

/-- Store produced by createUrl on an empty database: the link plus its empty
creation-time snapshot (src/unnamed/part_000:147-166). -/
def exCreated : Storage :=
  match createUrl emptyStorage { originalUrl := "https://t.example/a" } "abc" none "u1" 4 with
  | .ok (s2, _) => s2
  | .error _ => emptyStorage

/-- C10 witness: recomputation over the store createUrl just produced (zero
clicks) returns it bit-identically. -/
theorem update_no_clicks_writes_nothing_witness :
    updateUrlAnalytics exCreated "u1" 9 = exCreated :=
  update_no_clicks_writes_nothing exCreated "u1" 9 (by decide)

/-! ### C4 -/

/-- C4 counterexample: lookup of "abc" succeeds (the Resolved state), yet a
failing recorder pipeline yields the 500 "Server error" response, not the 301:
the handler *awaits* `storage.recordClick` before `res.redirect(301, ...)`
(src/server/routes.ts:319-330) and its catch-block answers 500. An
aggregation failure after the click insert even leaves the click row behind
while still answering 500. -/
theorem redirect_not_served_when_recorder_fails :
    getUrl exS "abc" = some exUrl ∧
    redirectHandler exS "abc" exReq true false 3 = (RedirectResponse.serverError, exS) ∧
    redirectHandler exS "abc" exReq false true 3
      = (RedirectResponse.serverError,
         { exS with urlClicks := exS.urlClicks ++ [mkClick "u1" exReq 3] }) := by
  refine ⟨by decide, by decide, by decide⟩

/-- C4 amended: when lookup succeeds, the 301 is served only if the whole
recording pipeline succeeds; a recorder or aggregator failure is caught and
surfaced to the redirect caller as a 500, with no redirect (a post-insert
aggregation failure still leaves the click row persisted). -/
theorem redirect_500_on_recorder_failure (s : Storage) (code : String) (req : RedirectRequest)
    (now : Nat) (u : Url) (insertFails aggFails : Bool)
    (h : getUrl s code = some u) :
    (redirectHandler s code req insertFails aggFails now).1
      = (if insertFails || aggFails then RedirectResponse.serverError
         else RedirectResponse.redirect301 u.originalUrl) ∧
    (redirectHandler s code req false true now).2.urlClicks
      = s.urlClicks ++ [mkClick u.id req now] := by
  unfold redirectHandler recordClickRun
  rw [h]
  refine ⟨?_, rfl⟩
  cases insertFails <;> cases aggFails <;> rfl

/-- C4 amended witness at the one-link store. -/
theorem redirect_500_on_recorder_failure_witness :
    ((redirectHandler exS "abc" exReq true false 3).1
        = (if (true : Bool) || false then RedirectResponse.serverError
           else RedirectResponse.redirect301 exUrl.originalUrl)) ∧
    (redirectHandler exS "abc" exReq false true 3).2.urlClicks
        = exS.urlClicks ++ [mkClick exUrl.id exReq 3] :=
  redirect_500_on_recorder_failure exS "abc" exReq 3 exUrl true false (by decide)

/-! ### C5 -/

/-- An active link whose expiry (100) is long past. -/
def expUrl : Url :=
  { id := "u2", originalUrl := "https://t.example/old", shortCode := "exp",
    customAlias := none, title := none, description := none, userId := some "usr",
    isActive := true, qrCodeUrl := none, createdAt := 0, updatedAt := 0,
    expiresAt := some 100 }

def expS : Storage := { urls := [expUrl], urlClicks := [], urlAnalytics := [] }

/-- C5 counterexample: at time 200, past the link's expiry 100, getUrl still
returns the link — its where-clause checks only short_code and is_active
(src/unnamed/part_000:101-106) — and the redirect route serves the 301
instead of the 404 the claim requires for an expired link. -/
theorem expired_link_still_resolves :
    expUrl.expiresAt = some 100 ∧
    getUrl expS "exp" = some expUrl ∧
    (redirectHandler expS "exp" exReq false false 200).1
      = RedirectResponse.redirect301 "https://t.example/old" := by
  refine ⟨by decide, by decide, by decide⟩

/-- Any resolved link satisfies the filter of getUrl's where-clause. -/
theorem getUrl_pred {s : Storage} {code : String} {u : Url}
    (h : getUrl s code = some u) : (u.shortCode == code && u.isActive) = true := by
  unfold getUrl at h
  have hmem : u ∈ s.urls.filter (fun v => v.shortCode == code && v.isActive) := by
    cases hf : s.urls.filter (fun v => v.shortCode == code && v.isActive) with
    | nil => rw [hf] at h; cases h
    | cons b t =>
        rw [hf] at h
        have h2 : some b = some u := h
        injection h2 with hbu
        subst hbu
        exact List.mem_cons_self b t
  exact (List.mem_filter.mp hmem).2

/-- C5 amended: resolution reads only `short_code` and `is_active`: a resolved
link is active with the matching code, and rewriting every link's `expires_at`
arbitrarily never changes the resolution outcome — expiry is ignored, so an
expired-but-active link still resolves (and an inactive one never does). -/
theorem resolve_checks_active_not_expiry (s : Storage) (code : String)
    (f : Url → Option Nat) (u : Url) (h : getUrl s code = some u) :
    u.isActive = true ∧ u.shortCode = code ∧
    getUrl (setExpiries f s) code = some { u with expiresAt := f u } := by
  have hp := getUrl_pred h
  rw [Bool.and_eq_true] at hp
  refine ⟨hp.2, by simpa using hp.1, ?_⟩
  have hgoal : getUrl (setExpiries f s) code
      = ((s.urls.map (fun v => { v with expiresAt := f v })).filter
          (fun v => v.shortCode == code && v.isActive)).head? := rfl
  rw [hgoal, List.filter_map]
  have hcomp : ((fun v : Url => v.shortCode == code && v.isActive)
      ∘ (fun v : Url => { v with expiresAt := f v }))
      = (fun v : Url => v.shortCode == code && v.isActive) := rfl
  rw [hcomp, List.head?_map]
  unfold getUrl at h
  rw [h]
  rfl

/-- C5 amended witness: the expired link resolves, and blanking every expiry
leaves the outcome unchanged. -/
theorem resolve_checks_active_not_expiry_witness :
    expUrl.isActive = true ∧ expUrl.shortCode = "exp" ∧
    getUrl (setExpiries (fun _ => none) expS) "exp" = some { expUrl with expiresAt := none } :=
  resolve_checks_active_not_expiry expS "exp" (fun _ => none) expUrl (by decide)

/-! ### C6 -/

/-- An existing active link already holding the 8-character code "AAAAAAAA". -/
def colUrl : Url :=
  { id := "u3", originalUrl := "https://t.example/b", shortCode := "AAAAAAAA",
    customAlias := none, title := none, description := none, userId := none,
    isActive := true, qrCodeUrl := none, createdAt := 0, updatedAt := 0, expiresAt := none }

def colS : Storage := { urls := [colUrl], urlClicks := [], urlAnalytics := [] }

/-- A creation request without a custom alias. -/
def noAliasBody : InsertUrl := { originalUrl := "https://t.example/c" }

/-- C6 counterexample: when the single `nanoid(8)` draw of routes.ts:120
collides with an existing code, the handler neither re-checks nor
regenerates — the insert's unique-constraint violation reaches the
catch-block at once and the request fails 500 with the store unchanged.
There is no uniqueness pre-check, no retry loop and no distinguished
ResourceExhaustedError for generated codes. -/
theorem generated_code_collision_fails_without_retry :
    createUrlHandler colS noAliasBody none "AAAAAAAA" none "u4" 5
      = (CreateResponse.failed, colS) := by decide

/-- C6 amended: for a creation request without a custom alias the route uses
the one generated code as-is: no uniqueness check and no retry. If the code
collides with any existing code the persistence-layer unique constraint
rejects it and the request fails 500 (store unchanged); otherwise the link is
created with exactly that code. -/
theorem allocator_single_draw (s : Storage) (body : InsertUrl) (user : Option String)
    (genCode : String) (qr : Option String) (newId : String) (now : Nat)
    (hnoalias : body.customAlias = none) :
    createUrlHandler s body user genCode qr newId now
      = if s.urls.any (fun v => v.shortCode == genCode)
        then (CreateResponse.failed, s)
        else (CreateResponse.created (newUrlRow { body with userId := user } genCode qr newId now),
              { s with
                urls := s.urls ++ [newUrlRow { body with userId := user } genCode qr newId now]
                urlAnalytics := s.urlAnalytics ++ [emptySnapRow newId now] }) := by
  unfold createUrlHandler createUrl
  rw [hnoalias]
  by_cases hc : s.urls.any (fun v => v.shortCode == genCode)
  · rw [if_pos hc, if_pos hc]
  · rw [if_neg hc, if_neg hc]

/-- C6 amended witness: the collision instance. -/
theorem allocator_single_draw_witness :
    createUrlHandler colS noAliasBody none "B2B2B2B2" none "u4" 5
      = if colS.urls.any (fun v => v.shortCode == "B2B2B2B2")
        then (CreateResponse.failed, colS)
        else (CreateResponse.created (newUrlRow { noAliasBody with userId := none } "B2B2B2B2" none "u4" 5),
              { colS with
                urls := colS.urls ++ [newUrlRow { noAliasBody with userId := none } "B2B2B2B2" none "u4" 5]
                urlAnalytics := colS.urlAnalytics ++ [emptySnapRow "u4" 5] }) :=
  allocator_single_draw colS noAliasBody none "B2B2B2B2" none "u4" 5 (by decide)

/-! ### C7 -/

/-- PUT body that changes the custom alias. -/
def putBody : UpdateBody := { customAlias := some "mypromo" }

/-- C7 counterexample: updating the link's custom alias through
PUT /api/urls/:id rewrites its shortCode from "abc" to "mypromo" — line 270 of
src/server/routes.ts copies the new alias into `updates.shortCode` before
calling updateUrl, so the short code is not immutable. -/
theorem shortCode_rewritten_by_put :
    (findUrlById (putUrlHandler exS "usr" "u1" putBody 9).2 "u1").map (·.shortCode)
      = some "mypromo" ∧
    (findUrlById exS "u1").map (·.shortCode) = some "abc" := by
  refine ⟨by decide, by decide⟩

/-- C7 amended: the shortCode of an existing link *does* change: whenever
PUT /api/urls/:id is called by the owner with a nonempty customAlias that
differs from the stored one, passes the availability pre-check and collides
with no stored code, the handler rewrites the row's shortCode to that alias.
(A shortCode supplied directly in the untyped body is likewise applied by
updateUrl.) -/
theorem put_with_new_alias_rewrites_shortCode (s : Storage) (userId id aliasStr : String)
    (b : UpdateBody) (now : Nat) (u : Url)
    (hfind : s.urls.find? (fun v => v.id == id) = some u)
    (hown : u.userId = some userId)
    (halias : b.customAlias = some aliasStr)
    (hnonempty : aliasStr ≠ "")
    (hdiff : u.customAlias ≠ some aliasStr)
    (hfresh : ∀ v ∈ s.urls, v.shortCode ≠ aliasStr) :
    (putUrlHandler s userId id b now).1
      = UpdateResponse.updated (applyUpdates u { b with shortCode := some aliasStr } now) ∧
    (applyUpdates u { b with shortCode := some aliasStr } now).shortCode = aliasStr := by
  obtain ⟨bo, bs, bc, bt, bd, ba, be⟩ := b
  have hbc : bc = some aliasStr := halias
  subst hbc
  have hchk : checkCustomAlias s aliasStr = false := by
    unfold checkCustomAlias
    rw [List.any_eq_false]
    intro v hv
    simp [hfresh v hv]
  have hown2 : (u.userId == some userId) = true := by simp [hown]
  have hne2 : (aliasStr != "") = true := by simp [hnonempty]
  have hdiff2 : (u.customAlias == some aliasStr) = false := by simp [hdiff]
  have hnocol : ¬ ∃ x ∈ s.urls, ¬x.id = id ∧ x.shortCode = aliasStr := by
    rintro ⟨x, hx, -, hxs⟩
    exact hfresh x hx hxs
  refine ⟨?_, rfl⟩
  simp only [putUrlHandler, updateUrl, applyUpdates, hfind, hown2, hne2, hdiff2, hchk,
    Bool.not_false, Bool.and_self, if_true, if_false, Option.getD_some]
  simp [hnocol]

/-- C7 amended witness: the owner renames the alias of the "abc" link. -/
theorem put_with_new_alias_rewrites_shortCode_witness :
    (putUrlHandler exS "usr" "u1" putBody 9).1
      = UpdateResponse.updated (applyUpdates exUrl { putBody with shortCode := some "mypromo" } 9) ∧
    (applyUpdates exUrl { putBody with shortCode := some "mypromo" } 9).shortCode = "mypromo" :=
  put_with_new_alias_rewrites_shortCode exS "usr" "u1" "mypromo" putBody 9 exUrl
    (by decide) (by decide) (by decide) (by decide) (by decide) (by decide)

/-! ### C8 -/

/-- A redirect request carrying a full-URL referrer header. -/
def refReq : RedirectRequest :=
  { userAgent := some "curl/8", referer := some "https://news.example/path",
    ip := some "198.51.100.9" }

/-- C8: the click row the redirect route records stores the *raw* referrer
header, not its hostname — routes.ts:313 computes
`extractDomain(req.headers.referer || '')` into a local that is never used,
and routes.ts:323 passes `req.headers.referer || null` to recordClick. The
hostname would have been "news.example". An absent header is stored NULL and
only surfaces as the "Direct" key of the aggregated referer dimension map
(with value 0, since `count(referer)` skips NULLs), while the present header's
dimension key is the full URL. -/
theorem referer_stored_raw_not_hostname :
    (mkClick "u1" refReq 4).referer = some "https://news.example/path" ∧
    extractDomain "https://news.example/path" = "news.example" ∧
    (mkClick "u1" exReq 4).referer = none ∧
    (findSnapshot (redirectHandler exS "abc" refReq false false 4).2 "u1").map (·.clicksByReferer)
      = some [("Direct", 0), ("https://news.example/path", 1)] := by
  refine ⟨by decide, by decide, by decide, by decide⟩

/-! ### C9 -/

/-- A retired (soft-deleted) link still holding the code "promo". -/
def retUrl : Url :=
  { id := "u5", originalUrl := "https://t.example/r", shortCode := "promo",
    customAlias := some "promo", title := none, description := none, userId := some "usr",
    isActive := false, qrCodeUrl := none, createdAt := 0, updatedAt := 0, expiresAt := none }

def retS : Storage := { urls := [retUrl], urlClicks := [], urlAnalytics := [] }

/-- A creation request reusing the retired link's code as its custom alias. -/
def promoBody : InsertUrl :=
  { originalUrl := "https://t.example/new", customAlias := some "promo" }

/-- C9: when a creation request's custom alias equals the short code of a
retired (inactive) link, checkCustomAlias — which filters on
`is_active = true` (src/unnamed/part_000:184-196) — returns false, so no 400
ConflictError is raised; the insert then violates the global unique constraint
on short_code (schema.ts:47) and the request surfaces as a 500 storage
failure with no second link created (the store is unchanged). -/
theorem retired_alias_no_conflict_but_500 (s : Storage) (body : InsertUrl)
    (user qr : Option String) (genCode newId aliasStr : String) (now : Nat) (u : Url)
    (halias : body.customAlias = some aliasStr)
    (hmem : u ∈ s.urls) (hcode : u.shortCode = aliasStr) (_hinactive : u.isActive = false)
    (hnoactive : ∀ v ∈ s.urls, v.shortCode = aliasStr → v.isActive = false) :
    checkCustomAlias s aliasStr = false ∧
    createUrlHandler s body user genCode qr newId now = (CreateResponse.failed, s) := by
  have hchk : checkCustomAlias s aliasStr = false := by
    unfold checkCustomAlias
    rw [List.any_eq_false]
    intro v hv
    by_cases hvc : v.shortCode = aliasStr
    · simp [hvc, hnoactive v hv hvc]
    · simp [hvc]
  refine ⟨hchk, ?_⟩
  have hdup : (s.urls.any (fun v => v.shortCode == aliasStr)) = true :=
    List.any_eq_true.mpr ⟨u, hmem, by simp [hcode]⟩
  simp [createUrlHandler, createUrl, halias, hchk, hdup]

/-- C9 witness: reusing the retired "promo" code. -/
theorem retired_alias_no_conflict_but_500_witness :
    checkCustomAlias retS "promo" = false ∧
    createUrlHandler retS promoBody none "G7G7G7G7" none "u6" 8
      = (CreateResponse.failed, retS) :=
  retired_alias_no_conflict_but_500 retS promoBody none none "G7G7G7G7" "u6" "promo" 8 retUrl
    (by decide) (by decide) (by decide) (by decide) (by decide)

end LinkShrink
